import Mathlib

/-!
Shallow embedding of the effect-resolution pipeline of FoundryVTT-Sequencer
(`src/scripts/sections/effect.js`, class `EffectSection`).  JavaScript numbers
are modelled as real numbers; `Math.random()` is modelled as an explicit
stream `rand : Nat -> Real` of draws in `[0, 1)` together with a counter that
is threaded through the pipeline in the order the source consumes draws.
Strings at the parsing boundary are handled over `List Char` with structural
recursion so that concrete runs reduce definitionally.
-/

namespace Sequencer

/-- A 2D point, mirroring the `{x, y}` objects of the source. -/
structure Pt where
  x : ℝ
  y : ℝ

/-- Pixel dimensions of an asset, mirroring `{x, y}` results of
`_getFileDimensions`. -/
structure Dims where
  x : ℝ
  y : ℝ

/-- The `file` property of an effect: a single path or an array of paths
(`this._file` may be a string or an array in the source). -/
inductive JsFile where
  | str (s : String)
  | arr (l : List String)

/-- The `_scaleMin` field: `false` (unset), a number, or an `{x?, y?}`
object (whose missing components default to `1` via `?? 1` at use site). -/
inductive SMin where
  | noScale
  | num (n : ℝ)
  | obj (ox oy : Option ℝ)

/-- A location reference as accepted by `_validateLocation` /
`_calculatePositions`: a plain point, a token (with a center and a
width/height in grid units, mirroring `token.center` and `token.data`),
a measured template (with position, shape type string and the endpoint
`ray.B` used for cone/ray shapes), or a name string resolved through the
sequence's named-position cache. -/
inductive Loc where
  | point (x y : ℝ)
  | token (cx cy w h : ℝ)
  | templ (x y : ℝ) (t : String) (bx bny : ℝ)
  | name (n : String)

/-- The render descriptor assembled by `_sanitizeData` (its local `data`
object).  `dist` models the `_distance` property. -/
structure EffectData where
  file : JsFile
  position : Pt
  anchor : Pt
  scale : Pt
  angle : ℝ
  rotation : ℝ
  speed : ℝ
  playbackRate : ℝ
  dist : ℝ
  fadeIn : ℝ
  fadeOut : ℝ

/-- The builder state of `EffectSection`: one field per `this._*` field
assigned in the source constructor.  Hook functions (`_overrides`,
`_postOverrides`) are modelled as pure descriptor transformers. -/
structure EffectSection where
  _file : JsFile
  _baseFolder : String
  _from : Option Loc
  _to : Option Loc
  _scaleMin : SMin
  _scaleMax : Option ℝ
  _anchor : Option Pt
  _randomRotation : Bool
  _rotationOnly : Bool
  _missed : Bool
  _startPoint : ℝ
  _endPoint : ℝ
  _mustache : Option (List (String × String))
  _JB2A : Bool
  _randomX : Bool
  _randomY : Bool
  _playbackRate : ℝ
  _gridSize : ℝ
  _overrides : List (EffectData → EffectData)
  _postOverrides : List (EffectData → EffectData)
  _name : Option String
  _fadeIn : ℝ
  _fadeOut : ℝ

/-- Ambient context of one pipeline run: the active scene grid size
(`canvas.grid.size`), the random stream (`Math.random` draws, in order of
consumption), the Handlebars engine (external collaborator, §6 of the spec)
and the asset metadata probe (`lib.getDimensions`, which may fail). -/
structure Ctx where
  canvasGridSize : ℝ
  rand : ℕ → ℝ
  hb : String → List (String × String) → String
  measure : String → Option Dims

/-- The per-sequence shared state: the asset-dimension cache and the
named-position cache (owned by the enclosing `Sequence`). -/
structure SeqState where
  fileCache : List (String × Dims)
  posCache : List ((String × ℕ) × Pt)

/-- Failure modes of a pipeline run (spec §7). -/
inductive Err where
  | unresolvedName (n : String) (rep : ℕ)
  | measurement (p : String)

/-! ## JavaScript string and number primitives

The fast-path parsing of `_getFileDimensions` uses `String.replace`,
`String.split`, `toLowerCase`, `isNaN` and `Number`.  These are embedded
over `List Char` with structural recursion. -/

/-- JS `str.split(c)` for a one-character separator: splits into the
(always nonempty) list of chunks between occurrences of `c`. -/
def splitOnCharAux (c : Char) : List Char → List Char → List (List Char)
  | [], acc => [acc.reverse]
  | d :: rest, acc =>
    if d = c then acc.reverse :: splitOnCharAux c rest []
    else splitOnCharAux c rest (d :: acc)

/-- JS `str.split(c)` (single-character separator). -/
def splitOnChar (c : Char) (l : List Char) : List (List Char) :=
  splitOnCharAux c l []

/-- JS `str.replace(pat, "")` with a plain-string pattern: removes the
first occurrence of `pat` (and only the first), leaving the rest intact. -/
def replaceFirstRemove (pat : List Char) : List Char → List Char
  | [] => []
  | c :: rest =>
    if pat.isPrefixOf (c :: rest) then List.drop pat.length (c :: rest)
    else c :: replaceFirstRemove pat rest

/-- Digit-string value, `none` unless the string is nonempty and all
digits (the all-digits numeral fragment of JS `Number`). -/
def digitsVal : List Char → Option ℕ
  | [] => none
  | l =>
    if l.all Char.isDigit then
      some (l.foldl (fun a c => a * 10 + (c.toNat - 48)) 0)
    else none

/-- Split a numeral at its exponent marker (`e` or `E`), if any. -/
def splitExp : List Char → List Char × Option (List Char)
  | [] => ([], none)
  | c :: rest =>
    if c = 'e' ∨ c = 'E' then ([], some rest)
    else
      let p := splitExp rest
      (c :: p.1, p.2)

/-- Mantissa of a JS decimal numeral: digits with at most one decimal
point, at least one digit overall. -/
def mantissaVal (l : List Char) : Option ℚ :=
  match splitOnChar '.' l with
  | [ip] => (digitsVal ip).map (fun n => (n : ℚ))
  | [ip, fp] =>
    if ip.all Char.isDigit ∧ fp.all Char.isDigit ∧ ¬(ip = [] ∧ fp = []) then
      some ((ip.foldl (fun a c => a * 10 + (c.toNat - 48)) 0 : ℕ) +
        (fp.foldl (fun a c => a * 10 + (c.toNat - 48)) 0 : ℕ) / (10 : ℚ) ^ fp.length)
    else none
  | _ => none

/-- Signed exponent of a JS decimal numeral. -/
def expVal : List Char → Option ℤ
  | '+' :: r => (digitsVal r).map (fun n => (n : ℤ))
  | '-' :: r => (digitsVal r).map (fun n => -(n : ℤ))
  | r => (digitsVal r).map (fun n => (n : ℤ))

/-- Unsigned JS numeral: mantissa with optional exponent part. -/
def unsignedVal (l : List Char) : Option ℚ :=
  let p := splitExp l
  match mantissaVal p.1, p.2 with
  | some m, none => some m
  | some m, some e => (expVal e).map (fun z => m * (10 : ℚ) ^ z)
  | none, _ => none

/-- Signed JS numeral. -/
def signedVal : List Char → Option ℚ
  | '+' :: rest => unsignedVal rest
  | '-' :: rest => (unsignedVal rest).map (fun q => -q)
  | l => unsignedVal l

/-- JS `Number(s)` on a string, as used by the `isNaN` guards of
`_getFileDimensions`: `none` models `NaN`; the empty (or all-whitespace)
string converts to `0`; decimal numerals (with optional sign, fraction and
exponent) convert to their value.  Hexadecimal forms cannot reach this
parser (the input was lowercased and split on `x`). -/
def jsNumberChars (l : List Char) : Option ℚ :=
  let t := ((l.dropWhile Char.isWhitespace).reverse.dropWhile Char.isWhitespace).reverse
  match t with
  | [] => some 0
  | t => signedVal t

/-- JS string coercion of the `file` property: an array coerces to its
comma-joined elements (as `this._baseFolder + data.file` would). -/
def jsFileToString : JsFile → String
  | .str s => s
  | .arr l => String.intercalate "," l

/-! ## Named-position cache (owned by the enclosing sequence) -/

/-- Modelled from the spec: `Sequence._getCachedPosition` lives in
`sequence.js`, which is not under `src/`; spec §4.3 specifies
`lookup(name, repetitionIndex) -> Point`, keyed by name and repetition
index, failing when absent.  The newest entry shadows older ones. -/
def getCachedPosition (st : SeqState) (n : String) (rep : ℕ) : Option Pt :=
  (st.posCache.find? (fun e => e.1.1 == n && e.1.2 == rep)).map (fun e => e.2)

/-- Modelled from the spec: `Sequence._insertCachedPosition` lives in
`sequence.js`, which is not under `src/`; spec §4.3 specifies
`record(name, repetitionIndex, position)`, overwriting silently
(shadowing) on re-record. -/
def insertCachedPosition (st : SeqState) (n : String) (rep : ℕ) (p : Pt) : SeqState :=
  { st with posCache := ((n, rep), p) :: st.posCache }

/-! ## Randomness primitives (from `lib.js`, not under `src/`) -/

/-- Modelled from the spec: `lib.random_float_between(lo, hi)` is not under
`src/`; spec §4.4 and §6 specify `uniform(lo, hi)`, a uniformly distributed
float between `lo` and `hi`, i.e. `lo + r * (hi - lo)` for a raw draw
`r ∈ [0, 1)`. -/
noncomputable def random_float_between (lo hi r : ℝ) : ℝ :=
  r * (hi - lo) + lo

/-- Modelled from the spec: `lib.random_array_element(arr)` is not under
`src/`; spec §4.5 step 7 specifies picking one element uniformly at random,
i.e. the element at index `floor(r * length)` for a raw draw `r ∈ [0, 1)`. -/
noncomputable def random_array_element (l : List String) (r : ℝ) : String :=
  l.getD (⌊r * (l.length : ℝ)⌋).toNat ""

/-! ## Vector math (Foundry's `Ray`, an external collaborator) -/

/-- Modelled from the spec: Foundry's `Ray` class is not part of this
repository; spec §4.1 specifies Euclidean distance between the two
endpoints (`ray.distance`). -/
noncomputable def rayDistance (a b : Pt) : ℝ :=
  Real.sqrt ((b.x - a.x) ^ 2 + (b.y - a.y) ^ 2)

/-- Modelled from the spec: the two-argument arctangent used by Foundry's
`Ray.angle` (spec §4.1, the renderer's winding convention). -/
noncomputable def jsAtan2 (y x : ℝ) : ℝ :=
  if 0 < x then Real.arctan (y / x)
  else if x < 0 then
    (if 0 ≤ y then Real.arctan (y / x) + Real.pi else Real.arctan (y / x) - Real.pi)
  else if 0 < y then Real.pi / 2
  else if y < 0 then -(Real.pi / 2)
  else 0

/-- Modelled from the spec: Foundry's `Ray.angle` — the angle (radians)
from the first endpoint to the second (spec §4.1). -/
noncomputable def rayAngle (a b : Pt) : ℝ :=
  jsAtan2 (b.y - a.y) (b.x - a.x)

/-! ## Builder methods of `EffectSection`

Each mirrors one chainable method of the source class; the mechanical
argument type-checking (`throw new Error(...)` on wrong types) is carried
by the Lean types. -/

namespace EffectSection

/-- The field defaults assigned by the `EffectSection` constructor
(`this._gridSize = canvas.grid.size`, everything else literal). -/
def init (canvasGridSize : ℝ) (inFile : JsFile) : EffectSection :=
  { _file := inFile
    _baseFolder := ""
    _from := none
    _to := none
    _scaleMin := .noScale
    _scaleMax := none
    _anchor := none
    _randomRotation := false
    _rotationOnly := true
    _missed := false
    _startPoint := 0
    _endPoint := 0
    _mustache := none
    _JB2A := false
    _randomX := false
    _randomY := false
    _playbackRate := 1
    _gridSize := canvasGridSize
    _overrides := []
    _postOverrides := []
    _name := none
    _fadeIn := 0
    _fadeOut := 0 }

/-- `gridSize(inSize)`: sets `this._gridSize`. -/
def gridSize (inSize : ℝ) (s : EffectSection) : EffectSection :=
  { s with _gridSize := inSize }

/-- `startPoint(inStartPoint)`: sets `this._startPoint`. -/
def startPoint (inStartPoint : ℝ) (s : EffectSection) : EffectSection :=
  { s with _startPoint := inStartPoint }

/-- `endPoint(inEndPoint)`: sets `this._endPoint`. -/
def endPoint (inEndPoint : ℝ) (s : EffectSection) : EffectSection :=
  { s with _endPoint := inEndPoint }

/-- `missed(inBool)`: sets `this._missed` to the argument. -/
def missed (inBool : Bool) (s : EffectSection) : EffectSection :=
  { s with _missed := inBool }

/-- `randomRotation(inBool)`: sets `this._randomRotation` to the argument. -/
def randomRotation (inBool : Bool) (s : EffectSection) : EffectSection :=
  { s with _randomRotation := inBool }

/-- `randomizeMirrorX(inBool)`: the source assigns `this._randomX = true`
unconditionally; the argument is validated but never read. -/
def randomizeMirrorX (_inBool : Bool) (s : EffectSection) : EffectSection :=
  { s with _randomX := true }

/-- `randomizeMirrorY(inBool)`: the source assigns `this._randomY = true`
unconditionally; the argument is validated but never read. -/
def randomizeMirrorY (_inBool : Bool) (s : EffectSection) : EffectSection :=
  { s with _randomY := true }

/-- `JB2A(inBool)`: with `true` sets grid size 100 and both trim points
200; with `false` resets grid size to `canvas.grid.size` and both trim
points to 0; in both cases it then assigns `this._JB2A = true`. -/
def JB2A (inBool : Bool) (canvasGridSize : ℝ) (s : EffectSection) : EffectSection :=
  if inBool then
    { (endPoint 200 (startPoint 200 (gridSize 100 s))) with _JB2A := true }
  else
    { (endPoint 0 (startPoint 0 (gridSize canvasGridSize s))) with _JB2A := true }

end EffectSection

/-! ## Location resolution (`_calculatePositions`, `_calculateMissedPosition`) -/

/-- JS truthiness of a stored location: `_validateLocation` returns an
object (always truthy) or a name string, and only the empty string is
falsy. -/
def locFalsy : Loc → Bool
  | .name n => n == ""
  | _ => false

/-- Truthiness of the `this._from` / `this._to` fields (`false` when
unset, otherwise the stored location's truthiness). -/
def optLocTruthy : Option Loc → Bool
  | none => false
  | some l => !locFalsy l

/-- Name substitution at the head of `_calculatePositions`: a string
location is replaced by the sequence's cached position for the current
repetition; a missing record fails the run (spec §4.3/§7,
`UnresolvedNameError`; the cache itself lives outside `src/`). -/
def resolveLoc (st : SeqState) (rep : ℕ) : Loc → Except Err Loc
  | .name n =>
    match getCachedPosition st n rep with
    | some p => .ok (.point p.x p.y)
    | none => .error (.unresolvedName n rep)
  | l => .ok l

/-- The `{x: l?.center?.x ?? l.x ?? 0, y: ...}` coercion of
`_calculatePositions`: a token contributes its center, points and
templates their own coordinates; a value with neither field yields 0. -/
def centerOf : Loc → Pt
  | .point x y => ⟨x, y⟩
  | .token cx cy _ _ => ⟨cx, cy⟩
  | .templ x y _ _ _ => ⟨x, y⟩
  | .name _ => ⟨0, 0⟩

/-- The `target?.data?.width ?? 1` lookup of `_calculateMissedPosition`
(grid units): only tokens carry bounding dimensions here. -/
def locDataWidth : Loc → Option ℝ
  | .token _ _ w _ => some w
  | _ => none

/-- The `target?.data?.height ?? 1` lookup of `_calculateMissedPosition`. -/
def locDataHeight : Loc → Option ℝ
  | .token _ _ _ h => some h
  | _ => none

/-- `_calculateMissedPosition(target, position, missed)`: when `missed`
is set, picks a primary axis (50/50), displaces it just outside the
target's bounding half-extent, and jitters the other axis, each with an
independent random sign; draws are consumed in source order (axis choice,
X sign, Y sign, X magnitude, Y magnitude). -/
noncomputable def calculateMissedPosition (ctx : Ctx) (target : Loc) (position : Pt)
    (missed : Bool) (k : ℕ) : Pt × ℕ :=
  if missed then
    let width := ((locDataWidth target).getD 1) * ctx.canvasGridSize
    let height := ((locDataHeight target).getD 1) * ctx.canvasGridSize
    let xOrY := ctx.rand k < 1 / 2
    let flipX : ℝ := if ctx.rand (k + 1) < 1 / 2 then -1 else 1
    let flipY : ℝ := if ctx.rand (k + 2) < 1 / 2 then -1 else 1
    let tokenOffset := ctx.canvasGridSize / 5
    if xOrY then
      (⟨position.x + (width / 2 +
          random_float_between tokenOffset (ctx.canvasGridSize / 2) (ctx.rand (k + 3))) * flipX,
        position.y +
          random_float_between tokenOffset (height / 2 + ctx.canvasGridSize / 2)
            (ctx.rand (k + 4)) * flipY⟩, k + 5)
    else
      (⟨position.x +
          random_float_between tokenOffset (width / 2 + ctx.canvasGridSize / 2)
            (ctx.rand (k + 3)) * flipX,
        position.y + (height / 2 +
          random_float_between tokenOffset (ctx.canvasGridSize / 2) (ctx.rand (k + 4))) * flipY⟩,
        k + 5)
  else (position, k)

/-- `_calculatePositions(from, to, missed)`: resolves name references,
takes centers, substitutes the directional endpoint for cone/ray
templates on the target side, and applies missed-offset sampling to the
origin only when no target exists (`!to && missed`), otherwise to the
target. -/
noncomputable def calculatePositions (ctx : Ctx) (st : SeqState) (rep : ℕ)
    (f : Loc) (t : Option Loc) (missed : Bool) (k : ℕ) :
    Except Err ((Pt × Option Pt) × ℕ) :=
  match resolveLoc st rep f with
  | .error e => .error e
  | .ok f' =>
    match t with
    | none =>
      let p := calculateMissedPosition ctx f' (centerOf f') missed k
      .ok ((p.1, none), p.2)
    | some t0 =>
      match resolveLoc st rep t0 with
      | .error e => .error e
      | .ok t' =>
        let toPos :=
          match t' with
          | .templ _ _ ty bx bny => if ty = "cone" ∨ ty = "ray" then (⟨bx, bny⟩ : Pt) else centerOf t'
          | _ => centerOf t'
        let p := calculateMissedPosition ctx t' toPos missed k
        .ok ((centerOf f', some p.1), p.2)

/-! ## Asset dimensions (`_getFileDimensions`, `_getTrueLength`) -/

/-- `_getFileDimensions(inFile)`: in JB2A mode first tries the structured
filename fast path — remove the first `".webm"`, split on `_`, take the
last chunk, lowercase it, split on `x` and `Number()`-parse the first two
pieces; if either is `NaN` it falls back to the sequence's dimension
cache, and on a cache miss to the metadata probe (which populates the
cache; the cache accessors live in `sequence.js`, outside `src/`, and are
modelled from spec §4.2). -/
def getFileDimensions (o : EffectSection) (ctx : Ctx) (st : SeqState)
    (inFile : String) : Except Err (Dims × SeqState) :=
  let filePath := o._baseFolder ++ inFile
  let parsed : Option Dims :=
    if o._JB2A then
      let parts := splitOnChar '_' (replaceFirstRemove ".webm".toList filePath.toList)
      let dimensionString := splitOnChar 'x' ((parts.getLastD []).map Char.toLower)
      match dimensionString with
      | a :: b :: _ =>
        match jsNumberChars a, jsNumberChars b with
        | some qa, some qb => some ⟨(qa : ℝ), (qb : ℝ)⟩
        | _, _ => none
      | _ => none
    else none
  match parsed with
  | some d => .ok (d, st)
  | none =>
    match st.fileCache.find? (fun e => e.1 == filePath) with
    | some e => .ok (e.2, st)
    | none =>
      match ctx.measure filePath with
      | some d => .ok (d, { st with fileCache := (filePath, d) :: st.fileCache })
      | none => .error (.measurement filePath)

/-- `_getTrueLength(inDimensions)`: the usable sprite length,
`dimensions.x - this._startPoint - this._endPoint`. -/
def getTrueLength (o : EffectSection) (inDimensions : Dims) : ℝ :=
  inDimensions.x - o._startPoint - o._endPoint

/-- `_calculateHitVector(data)`: a no-op at distance 0; otherwise looks up
the asset dimensions and sets `scale.x = _distance / trueLength`,
`scale.y = max(0.4, scale.x)` and `anchor.x = _startPoint / dimensions.x`. -/
noncomputable def calculateHitVector (o : EffectSection) (ctx : Ctx) (st : SeqState)
    (data : EffectData) : Except Err (EffectData × SeqState) :=
  if data.dist = 0 then .ok (data, st)
  else
    match getFileDimensions o ctx st (jsFileToString data.file) with
    | .error e => .error e
    | .ok (dims, st') =>
      let sx := data.dist / getTrueLength o dims
      .ok ({ data with
              scale := ⟨sx, max 0.4 sx⟩,
              anchor := ⟨o._startPoint / dims.x, data.anchor.y⟩ }, st')

/-! ## The `_sanitizeData` pipeline

The body of `_sanitizeData` is split into one definition per contiguous
block of the source, composed in source order by `sanitizeData`.  The draw
counter `k` advances exactly when the source evaluates `Math.random()`. -/

/-- The `data` initializer at the top of `_sanitizeData` (identity
defaults plus the configured playback rate and fade durations). -/
def initData (o : EffectSection) : EffectData :=
  { file := o._file
    position := ⟨0, 0⟩
    anchor := ⟨0, 0⟩
    scale := ⟨1, 1⟩
    angle := 0
    rotation := 0
    speed := 0
    playbackRate := o._playbackRate
    dist := 0
    fadeIn := o._fadeIn
    fadeOut := o._fadeOut }

/-- Lines 381–383: `if (this._anchor) data.anchor = this._anchor`. -/
def applyAnchor (o : EffectSection) (d : EffectData) : EffectData :=
  match o._anchor with
  | some a => { d with anchor := a }
  | none => d

/-- Lines 385–415: when `this._from` is truthy, resolve positions, default
the anchor to `(0.5, 0.5)` (or `(0.0, 0.5)` when `this._to` is also
truthy) unless an anchor was configured, set the position to the origin,
and with a truthy target set `_distance` and `rotation` from the ray
between origin and target. -/
noncomputable def positionPhase (o : EffectSection) (ctx : Ctx) (rep : ℕ) (st : SeqState)
    (d : EffectData) (k : ℕ) : Except Err (EffectData × ℕ) :=
  match o._from with
  | none => .ok (d, k)
  | some f =>
    if locFalsy f then .ok (d, k)
    else
      match calculatePositions ctx st rep f o._to o._missed k with
      | .error e => .error e
      | .ok (pq, k') =>
        let d1 := if o._anchor.isSome then d else { d with anchor := ⟨1 / 2, 1 / 2⟩ }
        let d2 := { d1 with position := pq.1 }
        if optLocTruthy o._to then
          let d3 := if o._anchor.isSome then d2 else { d2 with anchor := ⟨0, 1 / 2⟩ }
          let tp := pq.2.getD ⟨0, 0⟩
          .ok ({ d3 with
                  dist := rayDistance pq.1 tp,
                  rotation := rayAngle pq.1 tp }, k')
        else .ok (d2, k')

/-- Line 417: `data.rotation += this._randomRotation ? Math.random() * Math.PI : 0`
(the draw happens only when the flag is set). -/
noncomputable def rotationRandomPhase (o : EffectSection) (ctx : Ctx)
    (d : EffectData) (k : ℕ) : EffectData × ℕ :=
  if o._randomRotation then
    ({ d with rotation := d.rotation + ctx.rand k * Real.pi }, k + 1)
  else
    ({ d with rotation := d.rotation + 0 }, k)

/-- Lines 423–425: when the file is an array, pick one element at random. -/
noncomputable def filePickPhase (ctx : Ctx) (d : EffectData) (k : ℕ) : EffectData × ℕ :=
  match d.file with
  | .arr l => ({ d with file := .str (random_array_element l (ctx.rand k)) }, k + 1)
  | .str _ => (d, k)

/-- Lines 427–430: Handlebars template substitution of the file path
against the configured mustache context (engine in `Ctx`). -/
def mustachePhase (o : EffectSection) (ctx : Ctx) (d : EffectData) : EffectData :=
  match o._mustache with
  | some m => { d with file := .str (ctx.hb (jsFileToString d.file) m) }
  | none => d

/-- Lines 432–435: grid normalization — both scale axes are multiplied by
`canvas.grid.size / this._gridSize`. -/
noncomputable def gridNormPhase (o : EffectSection) (ctx : Ctx) (d : EffectData) : EffectData :=
  { d with scale := ⟨d.scale.x * (ctx.canvasGridSize / o._gridSize),
                    d.scale.y * (ctx.canvasGridSize / o._gridSize)⟩ }

/-- Lines 437–439: the hit vector runs only in reach mode
(`!this._rotationOnly`). -/
noncomputable def hitVectorPhase (o : EffectSection) (ctx : Ctx) (st : SeqState)
    (d : EffectData) : Except Err (EffectData × SeqState) :=
  if o._rotationOnly then .ok (d, st)
  else calculateHitVector o ctx st d

/-- Lines 441–455: resolve the configured scale spec (sampling uniformly
between `_scaleMin` and a truthy numeric `_scaleMax`) and multiply the
descriptor scale by it; an unset spec contributes the factor `1` (the
`scale?.x ?? 1.0` coercion). -/
noncomputable def scaleSpecPhase (o : EffectSection) (ctx : Ctx)
    (d : EffectData) (k : ℕ) : EffectData × ℕ :=
  match o._scaleMin with
  | .num n =>
    match o._scaleMax with
    | some m =>
      if m = 0 then ({ d with scale := ⟨d.scale.x * n, d.scale.y * n⟩ }, k)
      else
        let v := random_float_between n m (ctx.rand k)
        ({ d with scale := ⟨d.scale.x * v, d.scale.y * v⟩ }, k + 1)
    | none => ({ d with scale := ⟨d.scale.x * n, d.scale.y * n⟩ }, k)
  | .obj ox oy => ({ d with scale := ⟨d.scale.x * (ox.getD 1), d.scale.y * (oy.getD 1)⟩ }, k)
  | .noScale => ({ d with scale := ⟨d.scale.x * 1, d.scale.y * 1⟩ }, k)

/-- Lines 457–461: independent random mirror flips — each enabled axis is
negated with probability 1/2 (the draw happens only when the flag is set,
by `&&` short-circuiting). -/
noncomputable def mirrorPhase (o : EffectSection) (ctx : Ctx)
    (d : EffectData) (k : ℕ) : EffectData × ℕ :=
  let fx : ℝ × ℕ :=
    if o._randomX then (if ctx.rand k < 1 / 2 then (-1, k + 1) else (1, k + 1))
    else (1, k)
  let fy : ℝ × ℕ :=
    if o._randomY then (if ctx.rand fx.2 < 1 / 2 then (-1, fx.2 + 1) else (1, fx.2 + 1))
    else (1, fx.2)
  ({ d with scale := ⟨d.scale.x * fx.1, d.scale.y * fy.1⟩ }, fy.2)

/-- Line 463: prepend the configured base folder to the file path. -/
def baseFolderPhase (o : EffectSection) (d : EffectData) : EffectData :=
  { d with file := .str (o._baseFolder ++ jsFileToString d.file) }

/-- `_getName(data)`: the explicit name when truthy, else the final file
path's filename stem (`split('/').pop().split('.').shift()`), else the
sentinel `"-1"`. -/
def getName (o : EffectSection) (d : EffectData) : String :=
  let stem :=
    let f := jsFileToString d.file
    if f = "" then "-1"
    else String.mk ((splitOnChar '.' ((splitOnChar '/' f.toList).getLastD [])).headD [])
  match o._name with
  | some n => if n = "" then stem else n
  | none => stem

/-- Line 469: record the descriptor position in the named-position cache
under the effect's name and current repetition. -/
def recordPhase (o : EffectSection) (rep : ℕ) (st : SeqState) (d : EffectData) : SeqState :=
  insertCachedPosition st (getName o d) rep d.position

/-- Lines 356–430 of `_sanitizeData`: initialization, anchor application,
position/rotation resolution, random rotation, the pre-scale override
hooks, the random array pick and the mustache substitution — everything
before grid normalization. -/
noncomputable def preparePhase (o : EffectSection) (ctx : Ctx) (rep : ℕ)
    (st : SeqState) (k : ℕ) : Except Err (EffectData × ℕ) :=
  match positionPhase o ctx rep st (applyAnchor o (initData o)) k with
  | .error e => .error e
  | .ok (d1, k1) =>
    let r2 := rotationRandomPhase o ctx d1 k1
    let d3 := o._overrides.foldl (fun d f => f d) r2.1
    let r4 := filePickPhase ctx d3 r2.2
    .ok (mustachePhase o ctx r4.1, r4.2)

/-- Lines 432–471 of `_sanitizeData`: grid normalization, the hit vector
in reach mode, the scale spec, the random mirrors, the base folder, the
post-path override hooks, and the named-position record. -/
noncomputable def finishPhase (o : EffectSection) (ctx : Ctx) (rep : ℕ)
    (st : SeqState) (d5 : EffectData) (k5 : ℕ) :
    Except Err (EffectData × SeqState × ℕ) :=
  let d6 := gridNormPhase o ctx d5
  match hitVectorPhase o ctx st d6 with
  | .error e => .error e
  | .ok (d7, st7) =>
    let r8 := scaleSpecPhase o ctx d7 k5
    let r9 := mirrorPhase o ctx r8.1 r8.2
    let d10 := baseFolderPhase o r9.1
    let d11 := o._postOverrides.foldl (fun d f => f d) d10
    .ok (d11, recordPhase o rep st7 d11, r9.2)

/-- `_sanitizeData()`: the whole pipeline in source order — initialize,
apply/default the anchor and positions, add random rotation, run the
pre-scale override hooks, pick a file from an array, apply the mustache
template, normalize to the grid, compute the hit vector in reach mode,
apply the scale spec and random mirrors, prepend the base folder, run the
post-path override hooks, and record the named position. -/
noncomputable def sanitizeData (o : EffectSection) (ctx : Ctx) (rep : ℕ)
    (st : SeqState) (k : ℕ) : Except Err (EffectData × SeqState × ℕ) :=
  match preparePhase o ctx rep st k with
  | .error e => .error e
  | .ok (d5, k5) => finishPhase o ctx rep st d5 k5

/-! ## Result projections (used to state concrete facts without binders) -/

/-- The descriptor of a successful pipeline run. -/
noncomputable def descOf : Except Err (EffectData × SeqState × ℕ) → Option EffectData
  | .ok (d, _, _) => some d
  | .error _ => none

/-- The descriptor of a successful hit-vector computation. -/
noncomputable def hvDesc : Except Err (EffectData × SeqState) → Option EffectData
  | .ok (d, _) => some d
  | .error _ => none

/-- The descriptor of a successful position phase. -/
noncomputable def ppDesc : Except Err (EffectData × ℕ) → Option EffectData
  | .ok (d, _) => some d
  | .error _ => none

/-! ## Concrete instances used by witnesses and counterexamples -/

/-- A fixed random stream: every draw is 1/4. -/
noncomputable def cRand : ℕ → ℝ := fun _ => 1 / 4

/-- A concrete context: scene grid 100, constant draws, identity
templating, failing metadata probe. -/
noncomputable def cCtx : Ctx :=
  { canvasGridSize := 100, rand := cRand, hb := fun s _ => s, measure := fun _ => none }

/-- The same context with a probe that reports 7×7 for every asset. -/
noncomputable def cCtxProbe : Ctx :=
  { cCtx with measure := fun _ => some ⟨7, 7⟩ }

/-- An empty sequence state. -/
noncomputable def cSt0 : SeqState := { fileCache := [], posCache := [] }

/-- A sequence state with the dimensions of `"a.webm"` (200×150) cached. -/
noncomputable def cStAsset : SeqState := { fileCache := [("a.webm", ⟨200, 150⟩)], posCache := [] }

/-- A sequence state with the point (3, 4) recorded under name `"n"` at
repetition 0. -/
noncomputable def cStNamed : SeqState := { fileCache := [], posCache := [(("n", 0), ⟨3, 4⟩)] }

/-- A builder in JB2A (structured-asset-name) mode. -/
noncomputable def cOJB : EffectSection :=
  { EffectSection.init 100 (.str "a.webm") with _JB2A := true }

/-- A builder in reach mode (as left by `reachTowards`). -/
noncomputable def cO1 : EffectSection :=
  { EffectSection.init 100 (.str "a.webm") with _rotationOnly := false }

/-- A descriptor carrying a travel distance of 100 (as produced for
origin (0,0) and target (100,0)). -/
noncomputable def cD1 : EffectData := { initData cO1 with dist := 100 }

/-- A post-path override hook that overwrites the travel distance. -/
noncomputable def cHookDist : EffectData → EffectData := fun d => { d with dist := 5 }

/-- Options with no target and the distance-overwriting post hook. -/
noncomputable def cO4 : EffectSection :=
  { EffectSection.init 100 (.str "a.webm") with _postOverrides := [cHookDist] }

/-- Reach-mode options from (0,0) to (100,0), authored grid size 100. -/
noncomputable def cO5a : EffectSection :=
  { EffectSection.init 100 (.str "a.webm") with
      _from := some (.point 0 0), _to := some (.point 100 0), _rotationOnly := false }

/-- The same options with the authored grid size doubled to 200. -/
noncomputable def cO5b : EffectSection := { cO5a with _gridSize := 200 }

/-- Options with an origin point and no target (anchor left unset). -/
noncomputable def cO6 : EffectSection :=
  { EffectSection.init 100 (.str "a.webm") with _from := some (.point 3 4) }

/-! # Theorems -/

/-- C9: `randomizeMirrorX` and `randomizeMirrorY` set their
mirror-randomization flag to `true` regardless of the boolean argument:
for every input (including `false`) the builder state afterwards is the
input state with the corresponding flag enabled, so every subsequent
pipeline run of that effect sees the random mirror enabled. -/
theorem claim_C9 : ∀ (b : Bool) (s : EffectSection),
    EffectSection.randomizeMirrorX b s = { s with _randomX := true } ∧
    EffectSection.randomizeMirrorY b s = { s with _randomY := true } :=
  fun _ _ => ⟨rfl, rfl⟩

/-- C10: `JB2A(false)` resets the grid size to the scene default and both
trim points to 0, but still sets the structured-asset-name flag `_JB2A`
to `true`; consequently the filename fast path of `_getFileDimensions`
stays enabled (here it parses `a_2x3.webm` even though the metadata probe
always fails). -/
theorem claim_C10 :
    (∀ (g : ℝ) (s : EffectSection),
      EffectSection.JB2A false g s =
        { s with _gridSize := g, _startPoint := 0, _endPoint := 0, _JB2A := true } ∧
      (EffectSection.JB2A false g s)._JB2A = true) ∧
    getFileDimensions
        (EffectSection.JB2A false 100 (EffectSection.init 100 (.str "a_2x3.webm")))
        cCtx cSt0 "a_2x3.webm" =
      .ok (⟨((2 : ℚ) : ℝ), ((3 : ℚ) : ℝ)⟩, cSt0) :=
  ⟨fun _ _ => ⟨rfl, rfl⟩, rfl⟩

/-- C3 counterexample: in structured mode the source strips only the
literal `".webm"`, not an arbitrary extension, so `"fire_200x150.ext"`
does not parse and instead invokes the cache/measure path: with a failing
probe the lookup fails outright (instead of returning 200×150), and with
a probe reporting 7×7 it returns the probe's answer and caches it. -/
theorem claim_C3_counterexample :
    getFileDimensions cOJB cCtx cSt0 "fire_200x150.ext" =
      .error (.measurement "fire_200x150.ext") ∧
    getFileDimensions cOJB cCtxProbe cSt0 "fire_200x150.ext" =
      .ok (⟨7, 7⟩, { fileCache := [("fire_200x150.ext", ⟨7, 7⟩)], posCache := [] }) :=
  ⟨rfl, rfl⟩

/-- C3 (amended): in structured-asset-name mode, dimensions are parsed by
stripping the first occurrence of the literal `".webm"` (not a generic
extension), splitting on `_`, taking the last token, splitting it on `x`
and `Number`-parsing both halves, with fallthrough to the cache/measure
path when either half is not numeric: `"fire_200x150.webm"` yields
`{x: 200, y: 150}` without invoking the measurement probe (the probe here
always fails, yet the lookup succeeds), while `"fire_abcxdef.ext"` falls
through to the probe. -/
theorem claim_C3 :
    getFileDimensions cOJB cCtx cSt0 "fire_200x150.webm" =
      .ok (⟨((200 : ℚ) : ℝ), ((150 : ℚ) : ℝ)⟩, cSt0) ∧
    ((200 : ℚ) : ℝ) = (200 : ℝ) ∧ ((150 : ℚ) : ℝ) = (150 : ℝ) ∧
    getFileDimensions cOJB cCtxProbe cSt0 "fire_abcxdef.ext" =
      .ok (⟨7, 7⟩, { fileCache := [("fire_abcxdef.ext", ⟨7, 7⟩)], posCache := [] }) :=
  ⟨rfl, by norm_num, by norm_num, rfl⟩

/-- C8: determinism of the pipeline — two runs on the same options,
repetition index, sequence state and draw counter, under contexts that
agree on the grid size, the random stream, the templating engine and the
metadata probe, produce identical results (descriptor, state and
counter). -/
theorem claim_C8 (o : EffectSection) (ctx1 ctx2 : Ctx) (rep : ℕ) (st : SeqState) (k : ℕ)
    (hg : ctx1.canvasGridSize = ctx2.canvasGridSize)
    (hr : ctx1.rand = ctx2.rand)
    (hh : ctx1.hb = ctx2.hb)
    (hm : ctx1.measure = ctx2.measure) :
    sanitizeData o ctx1 rep st k = sanitizeData o ctx2 rep st k := by
  obtain ⟨g1, r1, b1, m1⟩ := ctx1
  obtain ⟨g2, r2, b2, m2⟩ := ctx2
  simp only at hg hr hh hm
  subst hg; subst hr; subst hh; subst hm
  rfl

/-- Witness for C8 at a concrete run. -/
theorem claim_C8_witness :
    sanitizeData cO1 cCtx 0 cSt0 0 = sanitizeData cO1 cCtx 0 cSt0 0 :=
  claim_C8 cO1 cCtx cCtx 0 cSt0 0 rfl rfl rfl rfl

/-- C1: in reach/stretch mode (rotation-only flag false) with nonzero
travel distance, the hit-vector computation sets `scale.x` to
`_distance / trueLength` (with `trueLength = dimensions.x - startPoint -
endPoint`), `scale.y` to `max(0.4, scale.x)` and `anchor.x` to
`startPoint / dimensions.x`. -/
theorem claim_C1 (o : EffectSection) (ctx : Ctx) (st st2 : SeqState) (d : EffectData)
    (dims : Dims) (hrot : o._rotationOnly = false) (hd : d.dist ≠ 0)
    (hdims : getFileDimensions o ctx st (jsFileToString d.file) = .ok (dims, st2)) :
    hitVectorPhase o ctx st d =
      .ok ({ d with
              scale := ⟨d.dist / getTrueLength o dims,
                        max 0.4 (d.dist / getTrueLength o dims)⟩,
              anchor := ⟨o._startPoint / dims.x, d.anchor.y⟩ }, st2) := by
  simp [hitVectorPhase, calculateHitVector, hrot, hd, hdims]

/-- Witness for C1 at travel distance 100 (origin (0,0), target (100,0)),
asset width 200 and both trim points 0: the resulting scale is (0.5, 0.5)
and the resulting `anchor.x` is 0. -/
theorem claim_C1_witness :
    (hvDesc (hitVectorPhase cO1 cCtx cStAsset cD1)).map
        (fun d => (d.scale.x, d.scale.y, d.anchor.x)) =
      some (1 / 2, 1 / 2, 0) := by
  rw [claim_C1 cO1 cCtx cStAsset cStAsset cD1 ⟨200, 150⟩ rfl
    (by show (100 : ℝ) ≠ 0; norm_num) rfl]
  have hmax : max (0.4 : ℝ) (cD1.dist / getTrueLength cO1 ⟨200, 150⟩) = 1 / 2 := by
    rw [show cD1.dist / getTrueLength cO1 ⟨200, 150⟩ = 1 / 2 by
      show (100 : ℝ) / (200 - 0 - 0) = 1 / 2; norm_num]
    exact max_eq_right (by norm_num)
  simp [hvDesc, hmax]
  constructor
  · norm_num [cD1, cO1, EffectSection.init, initData, getTrueLength]
  · norm_num [cO1, EffectSection.init]

/-- Evaluation of `_calculateMissedPosition` when the first draw picks X
as the primary axis. -/
theorem calculateMissedPosition_xPrimary (ctx : Ctx) (target : Loc) (pos : Pt) (k : ℕ)
    (h : ctx.rand k < 1 / 2) :
    calculateMissedPosition ctx target pos true k =
      (⟨pos.x + (((locDataWidth target).getD 1) * ctx.canvasGridSize / 2 +
          random_float_between (ctx.canvasGridSize / 5) (ctx.canvasGridSize / 2)
            (ctx.rand (k + 3))) *
          (if ctx.rand (k + 1) < 1 / 2 then -1 else 1),
        pos.y + random_float_between (ctx.canvasGridSize / 5)
            (((locDataHeight target).getD 1) * ctx.canvasGridSize / 2 + ctx.canvasGridSize / 2)
            (ctx.rand (k + 4)) *
          (if ctx.rand (k + 2) < 1 / 2 then -1 else 1)⟩, k + 5) := by
  simp only [calculateMissedPosition, if_true]
  rw [if_pos h]

/-- Evaluation of `_calculateMissedPosition` when the first draw picks Y
as the primary axis. -/
theorem calculateMissedPosition_yPrimary (ctx : Ctx) (target : Loc) (pos : Pt) (k : ℕ)
    (h : ¬ ctx.rand k < 1 / 2) :
    calculateMissedPosition ctx target pos true k =
      (⟨pos.x + random_float_between (ctx.canvasGridSize / 5)
            (((locDataWidth target).getD 1) * ctx.canvasGridSize / 2 + ctx.canvasGridSize / 2)
            (ctx.rand (k + 3)) *
          (if ctx.rand (k + 1) < 1 / 2 then -1 else 1),
        pos.y + (((locDataHeight target).getD 1) * ctx.canvasGridSize / 2 +
          random_float_between (ctx.canvasGridSize / 5) (ctx.canvasGridSize / 2)
            (ctx.rand (k + 4))) *
          (if ctx.rand (k + 2) < 1 / 2 then -1 else 1)⟩, k + 5) := by
  simp only [calculateMissedPosition, if_true]
  rw [if_neg h]

/-- C2: missed-offset sampling — with `missed` set, five draws are
consumed; a draw below 1/2 picks X as the primary axis, displacing it by
`(halfWidth + uniform(grid/5, grid/2))` times a random sign and the Y
axis by `uniform(grid/5, halfHeight + grid/2)` times an independent
random sign, so the resulting X coordinate lies strictly outside the
reference's bounding box on the X axis (dimensionless references default
to width = height = 1 grid unit through `locDataWidth`/`locDataHeight`);
a draw of at least 1/2 picks Y as primary, mirror-image. -/
theorem claim_C2 (ctx : Ctx) (target : Loc) (pos : Pt) (k : ℕ)
    (hg : 0 < ctx.canvasGridSize)
    (h3 : 0 ≤ ctx.rand (k + 3)) (h4 : 0 ≤ ctx.rand (k + 4)) :
    (calculateMissedPosition ctx target pos true k).2 = k + 5 ∧
    (ctx.rand k < 1 / 2 →
      (calculateMissedPosition ctx target pos true k).1.x =
        pos.x + (((locDataWidth target).getD 1) * ctx.canvasGridSize / 2 +
          random_float_between (ctx.canvasGridSize / 5) (ctx.canvasGridSize / 2)
            (ctx.rand (k + 3))) *
          (if ctx.rand (k + 1) < 1 / 2 then -1 else 1) ∧
      (calculateMissedPosition ctx target pos true k).1.y =
        pos.y + random_float_between (ctx.canvasGridSize / 5)
            (((locDataHeight target).getD 1) * ctx.canvasGridSize / 2 + ctx.canvasGridSize / 2)
            (ctx.rand (k + 4)) *
          (if ctx.rand (k + 2) < 1 / 2 then -1 else 1) ∧
      ((calculateMissedPosition ctx target pos true k).1.x <
          pos.x - ((locDataWidth target).getD 1) * ctx.canvasGridSize / 2 ∨
        pos.x + ((locDataWidth target).getD 1) * ctx.canvasGridSize / 2 <
          (calculateMissedPosition ctx target pos true k).1.x)) ∧
    (¬ ctx.rand k < 1 / 2 →
      (calculateMissedPosition ctx target pos true k).1.x =
        pos.x + random_float_between (ctx.canvasGridSize / 5)
            (((locDataWidth target).getD 1) * ctx.canvasGridSize / 2 + ctx.canvasGridSize / 2)
            (ctx.rand (k + 3)) *
          (if ctx.rand (k + 1) < 1 / 2 then -1 else 1) ∧
      (calculateMissedPosition ctx target pos true k).1.y =
        pos.y + (((locDataHeight target).getD 1) * ctx.canvasGridSize / 2 +
          random_float_between (ctx.canvasGridSize / 5) (ctx.canvasGridSize / 2)
            (ctx.rand (k + 4))) *
          (if ctx.rand (k + 2) < 1 / 2 then -1 else 1) ∧
      ((calculateMissedPosition ctx target pos true k).1.y <
          pos.y - ((locDataHeight target).getD 1) * ctx.canvasGridSize / 2 ∨
        pos.y + ((locDataHeight target).getD 1) * ctx.canvasGridSize / 2 <
          (calculateMissedPosition ctx target pos true k).1.y)) := by
  have hgd : (0 : ℝ) ≤ ctx.canvasGridSize / 2 - ctx.canvasGridSize / 5 := by linarith
  by_cases hxy : ctx.rand k < 1 / 2
  · rw [calculateMissedPosition_xPrimary ctx target pos k hxy]
    refine ⟨rfl, fun _ => ⟨rfl, rfl, ?_⟩, fun h => absurd hxy h⟩
    simp only [random_float_between]
    by_cases hfx : ctx.rand (k + 1) < 1 / 2
    · left
      rw [if_pos hfx]
      nlinarith [mul_nonneg h3 hgd]
    · right
      rw [if_neg hfx]
      nlinarith [mul_nonneg h3 hgd]
  · rw [calculateMissedPosition_yPrimary ctx target pos k hxy]
    refine ⟨rfl, fun h => absurd h hxy, fun _ => ⟨rfl, rfl, ?_⟩⟩
    simp only [random_float_between]
    by_cases hfy : ctx.rand (k + 2) < 1 / 2
    · left
      rw [if_pos hfy]
      nlinarith [mul_nonneg h4 hgd]
    · right
      rw [if_neg hfy]
      nlinarith [mul_nonneg h4 hgd]

/-- Fields of the descriptor untouched by `applyAnchor` (everything but
the anchor). -/
theorem applyAnchor_fields (o : EffectSection) (d : EffectData) :
    (applyAnchor o d).rotation = d.rotation ∧
    (applyAnchor o d).dist = d.dist ∧
    (applyAnchor o d).scale = d.scale ∧
    (applyAnchor o d).file = d.file := by
  cases ha : o._anchor <;> simp [applyAnchor, ha]

/-- Fields of the descriptor untouched by the random array pick. -/
theorem filePickPhase_fields (ctx : Ctx) (d : EffectData) (k : ℕ) :
    (filePickPhase ctx d k).1.position = d.position ∧
    (filePickPhase ctx d k).1.anchor = d.anchor ∧
    (filePickPhase ctx d k).1.scale = d.scale ∧
    (filePickPhase ctx d k).1.rotation = d.rotation ∧
    (filePickPhase ctx d k).1.dist = d.dist := by
  cases hf : d.file <;> simp [filePickPhase, hf]

/-- Fields of the descriptor untouched by the mustache substitution. -/
theorem mustachePhase_fields (o : EffectSection) (ctx : Ctx) (d : EffectData) :
    (mustachePhase o ctx d).position = d.position ∧
    (mustachePhase o ctx d).anchor = d.anchor ∧
    (mustachePhase o ctx d).scale = d.scale ∧
    (mustachePhase o ctx d).rotation = d.rotation ∧
    (mustachePhase o ctx d).dist = d.dist := by
  cases hm : o._mustache <;> simp [mustachePhase, hm]

/-- Grid normalization multiplies both scale axes by the grid ratio and
leaves every other field unchanged. -/
theorem gridNormPhase_fields (o : EffectSection) (ctx : Ctx) (d : EffectData) :
    (gridNormPhase o ctx d).position = d.position ∧
    (gridNormPhase o ctx d).anchor = d.anchor ∧
    (gridNormPhase o ctx d).rotation = d.rotation ∧
    (gridNormPhase o ctx d).dist = d.dist ∧
    (gridNormPhase o ctx d).file = d.file ∧
    (gridNormPhase o ctx d).scale.x = d.scale.x * (ctx.canvasGridSize / o._gridSize) ∧
    (gridNormPhase o ctx d).scale.y = d.scale.y * (ctx.canvasGridSize / o._gridSize) := by
  simp [gridNormPhase]

/-- Evaluation of the random-rotation line: the rotation gains
`rand * π` exactly when the flag is set, and one draw is consumed exactly
then. -/
theorem rotationRandomPhase_eval (o : EffectSection) (ctx : Ctx) (d : EffectData) (k : ℕ) :
    rotationRandomPhase o ctx d k =
      ({ d with rotation := d.rotation + (if o._randomRotation then ctx.rand k * Real.pi else 0) },
        if o._randomRotation then k + 1 else k) := by
  cases hr : o._randomRotation <;> simp [rotationRandomPhase, hr]

/-- The scale-spec step multiplies both axes by per-axis factors that do
not depend on the incoming descriptor, and advances the counter
independently of it. -/
theorem scaleSpecPhase_factor (o : EffectSection) (ctx : Ctx) (k : ℕ) :
    ∃ vx vy : ℝ, ∃ k2 : ℕ, ∀ d : EffectData,
      scaleSpecPhase o ctx d k = ({ d with scale := ⟨d.scale.x * vx, d.scale.y * vy⟩ }, k2) := by
  cases hs : o._scaleMin with
  | noScale => exact ⟨1, 1, k, fun d => by simp [scaleSpecPhase, hs]⟩
  | num n =>
    cases hm : o._scaleMax with
    | none => exact ⟨n, n, k, fun d => by simp [scaleSpecPhase, hs, hm]⟩
    | some m =>
      by_cases hz : m = 0
      · exact ⟨n, n, k, fun d => by simp [scaleSpecPhase, hs, hm, hz]⟩
      · exact ⟨random_float_between n m (ctx.rand k), random_float_between n m (ctx.rand k),
          k + 1, fun d => by simp [scaleSpecPhase, hs, hm, hz]⟩
  | obj ox oy => exact ⟨ox.getD 1, oy.getD 1, k, fun d => by simp [scaleSpecPhase, hs]⟩

/-- The mirror step multiplies both axes by sign factors that do not
depend on the incoming descriptor, and advances the counter independently
of it. -/
theorem mirrorPhase_factor (o : EffectSection) (ctx : Ctx) (k : ℕ) :
    ∃ fx fy : ℝ, ∃ k2 : ℕ, ∀ d : EffectData,
      mirrorPhase o ctx d k = ({ d with scale := ⟨d.scale.x * fx, d.scale.y * fy⟩ }, k2) := by
  refine ⟨(if o._randomX then (if ctx.rand k < 1 / 2 then ((-1 : ℝ), k + 1) else (1, k + 1))
      else (1, k)).1,
    (if o._randomY then
        (if ctx.rand (if o._randomX then
              (if ctx.rand k < 1 / 2 then ((-1 : ℝ), k + 1) else (1, k + 1))
            else (1, k)).2 < 1 / 2 then
          ((-1 : ℝ), (if o._randomX then
              (if ctx.rand k < 1 / 2 then ((-1 : ℝ), k + 1) else (1, k + 1))
            else (1, k)).2 + 1)
        else (1, (if o._randomX then
              (if ctx.rand k < 1 / 2 then ((-1 : ℝ), k + 1) else (1, k + 1))
            else (1, k)).2 + 1))
      else (1, (if o._randomX then
          (if ctx.rand k < 1 / 2 then ((-1 : ℝ), k + 1) else (1, k + 1))
        else (1, k)).2)).1,
    (if o._randomY then
        (if ctx.rand (if o._randomX then
              (if ctx.rand k < 1 / 2 then ((-1 : ℝ), k + 1) else (1, k + 1))
            else (1, k)).2 < 1 / 2 then
          ((-1 : ℝ), (if o._randomX then
              (if ctx.rand k < 1 / 2 then ((-1 : ℝ), k + 1) else (1, k + 1))
            else (1, k)).2 + 1)
        else (1, (if o._randomX then
              (if ctx.rand k < 1 / 2 then ((-1 : ℝ), k + 1) else (1, k + 1))
            else (1, k)).2 + 1))
      else (1, (if o._randomX then
          (if ctx.rand k < 1 / 2 then ((-1 : ℝ), k + 1) else (1, k + 1))
        else (1, k)).2)).2,
    fun d => rfl⟩

/-- Fields of the descriptor untouched by the base-folder prefix. -/
theorem baseFolderPhase_fields (o : EffectSection) (d : EffectData) :
    (baseFolderPhase o d).position = d.position ∧
    (baseFolderPhase o d).anchor = d.anchor ∧
    (baseFolderPhase o d).scale = d.scale ∧
    (baseFolderPhase o d).rotation = d.rotation ∧
    (baseFolderPhase o d).dist = d.dist := by
  simp [baseFolderPhase]

/-- The hit vector is a no-op at travel distance 0, in both modes. -/
theorem hitVectorPhase_dist0 (o : EffectSection) (ctx : Ctx) (st : SeqState)
    (d : EffectData) (h : d.dist = 0) :
    hitVectorPhase o ctx st d = .ok (d, st) := by
  cases hr : o._rotationOnly <;> simp [hitVectorPhase, calculateHitVector, hr, h]

/-- Witness for C2: a 1×1-grid-unit token centered at (50, 50) on a grid
of size 100, with every draw 1/4 (X primary, both signs negative): five
draws are consumed and the sampled X coordinate lies strictly outside the
token's X footprint [0, 100]. -/
theorem claim_C2_witness :
    (calculateMissedPosition cCtx (.token 50 50 1 1) ⟨50, 50⟩ true 0).2 = 0 + 5 ∧
    ((calculateMissedPosition cCtx (.token 50 50 1 1) ⟨50, 50⟩ true 0).1.x <
        50 - 1 * 100 / 2 ∨
      50 + 1 * 100 / 2 <
        (calculateMissedPosition cCtx (.token 50 50 1 1) ⟨50, 50⟩ true 0).1.x) := by
  have h := claim_C2 cCtx (.token 50 50 1 1) ⟨50, 50⟩ 0
    (by norm_num [cCtx]) (by norm_num [cCtx, cRand]) (by norm_num [cCtx, cRand])
  refine ⟨h.1, ?_⟩
  have hx := (h.2.1 (by norm_num [cCtx, cRand])).2.2
  simpa [cCtx, locDataWidth] using hx

/-- The anchor produced by the position phase: kept when explicitly
configured, defaulted to (0.5, 0.5) for a truthy origin without a truthy
target, to (0, 0.5) when both are truthy, and untouched when the origin
is absent or falsy. -/
theorem positionPhase_anchor (o : EffectSection) (ctx : Ctx) (rep : ℕ) (st : SeqState)
    (d0 : EffectData) (k : ℕ) :
    ∀ d k1, positionPhase o ctx rep st d0 k = .ok (d, k1) →
      d.anchor = (if o._anchor.isSome then d0.anchor
        else if optLocTruthy o._from = false then d0.anchor
        else if optLocTruthy o._to = true then (⟨0, 1 / 2⟩ : Pt)
        else ⟨1 / 2, 1 / 2⟩) := by
  intro d k1 h
  cases hfrom : o._from with
  | none =>
    simp only [positionPhase, hfrom] at h
    simp only [Except.ok.injEq, Prod.mk.injEq] at h
    simp [optLocTruthy, hfrom, ← h.1]
  | some f =>
    cases hff : locFalsy f with
    | true =>
      simp only [positionPhase, hfrom, hff, if_true] at h
      simp only [Except.ok.injEq, Prod.mk.injEq] at h
      simp [optLocTruthy, hfrom, hff, ← h.1]
    | false =>
      simp only [positionPhase, hfrom, hff] at h
      cases hcp : calculatePositions ctx st rep f o._to o._missed k with
      | error e =>
        rw [hcp] at h
        simp at h
      | ok pq =>
        rw [hcp] at h
        obtain ⟨⟨p1, p2⟩, kq⟩ := pq
        cases ha : o._anchor with
        | none =>
          cases hto : o._to with
          | none =>
            simp [ha, hto, optLocTruthy, hfrom, hff] at h ⊢
            obtain ⟨h1, h2⟩ := h
            subst h1
            simp
          | some t =>
            cases hlf : locFalsy t with
            | true =>
              simp [ha, hto, hlf, optLocTruthy, hfrom, hff] at h ⊢
              obtain ⟨h1, h2⟩ := h
              subst h1
              simp
            | false =>
              simp [ha, hto, hlf, optLocTruthy, hfrom, hff] at h ⊢
              obtain ⟨h1, h2⟩ := h
              subst h1
              simp
        | some a =>
          cases hto : o._to with
          | none =>
            simp [ha, hto, optLocTruthy, hfrom, hff] at h ⊢
            obtain ⟨h1, h2⟩ := h
            subst h1
            simp
          | some t =>
            cases hlf : locFalsy t with
            | true =>
              simp [ha, hto, hlf, optLocTruthy, hfrom, hff] at h ⊢
              obtain ⟨h1, h2⟩ := h
              subst h1
              simp
            | false =>
              simp [ha, hto, hlf, optLocTruthy, hfrom, hff] at h ⊢
              obtain ⟨h1, h2⟩ := h
              subst h1
              simp

/-- C6: anchor defaulting in the pipeline — an explicitly configured
anchor is applied to the descriptor; otherwise, with a truthy origin
reference and no truthy target the anchor defaults to (0.5, 0.5); with
both a truthy origin and a truthy target it defaults to (0.0, 0.5); and
with no truthy origin reference it stays at the identity default (0, 0)
of the initializer. -/
theorem claim_C6 (o : EffectSection) (ctx : Ctx) (rep : ℕ) (st : SeqState) (k : ℕ) :
    (∀ a, o._anchor = some a →
      ∀ d k1, positionPhase o ctx rep st (applyAnchor o (initData o)) k = .ok (d, k1) →
        d.anchor = a) ∧
    (o._anchor = none → optLocTruthy o._from = true → optLocTruthy o._to = false →
      ∀ d k1, positionPhase o ctx rep st (applyAnchor o (initData o)) k = .ok (d, k1) →
        d.anchor = ⟨1 / 2, 1 / 2⟩) ∧
    (o._anchor = none → optLocTruthy o._from = true → optLocTruthy o._to = true →
      ∀ d k1, positionPhase o ctx rep st (applyAnchor o (initData o)) k = .ok (d, k1) →
        d.anchor = ⟨0, 1 / 2⟩) ∧
    (o._anchor = none → optLocTruthy o._from = false →
      ∀ d k1, positionPhase o ctx rep st (applyAnchor o (initData o)) k = .ok (d, k1) →
        d.anchor = ⟨0, 0⟩) := by
  refine ⟨?_, ?_, ?_, ?_⟩
  · intro a ha d k1 h
    have hr := positionPhase_anchor o ctx rep st (applyAnchor o (initData o)) k d k1 h
    simpa [ha, applyAnchor] using hr
  · intro ha hf ht d k1 h
    have hr := positionPhase_anchor o ctx rep st (applyAnchor o (initData o)) k d k1 h
    simpa [ha, hf, ht] using hr
  · intro ha hf ht d k1 h
    have hr := positionPhase_anchor o ctx rep st (applyAnchor o (initData o)) k d k1 h
    simpa [ha, hf, ht] using hr
  · intro ha hf d k1 h
    have hr := positionPhase_anchor o ctx rep st (applyAnchor o (initData o)) k d k1 h
    simpa [ha, hf, applyAnchor, initData] using hr

/-- Witness for C6 at an origin point (3, 4) with no target and no
explicit anchor: the phase yields anchor (0.5, 0.5). -/
theorem claim_C6_witness :
    (ppDesc (positionPhase cO6 cCtx 0 cSt0 (applyAnchor cO6 (initData cO6)) 0)).map
        (fun d => d.anchor) = some ⟨1 / 2, 1 / 2⟩ := by
  have hEq : positionPhase cO6 cCtx 0 cSt0 (applyAnchor cO6 (initData cO6)) 0 =
      .ok ({ file := .str "a.webm", position := ⟨3, 4⟩, anchor := ⟨1 / 2, 1 / 2⟩,
             scale := ⟨1, 1⟩, angle := 0, rotation := 0, speed := 0, playbackRate := 1,
             dist := 0, fadeIn := 0, fadeOut := 0 }, 0) := rfl
  have h := (claim_C6 cO6 cCtx 0 cSt0 0).2.1 rfl rfl rfl _ _ hEq
  rw [hEq]
  simp only [ppDesc]
  exact congrArg some h

/-- A successful pipeline run returns the state produced by recording the
returned descriptor's position under the effect's name and the current
repetition (on top of the state left by the hit-vector step). -/
theorem sanitizeData_ok_state (o : EffectSection) (ctx : Ctx) (rep : ℕ)
    (st : SeqState) (k : ℕ) :
    ∀ d st' k', sanitizeData o ctx rep st k = .ok (d, st', k') →
      ∃ st7, st' = recordPhase o rep st7 d := by
  intro d st' k' h
  unfold sanitizeData at h
  cases hp : preparePhase o ctx rep st k with
  | error e =>
    rw [hp] at h
    simp at h
  | ok p =>
    rw [hp] at h
    obtain ⟨d5, k5⟩ := p
    simp only at h
    simp only [finishPhase] at h
    cases hv : hitVectorPhase o ctx st (gridNormPhase o ctx d5) with
    | error e =>
      rw [hv] at h
      simp at h
    | ok q =>
      rw [hv] at h
      obtain ⟨d7, st7⟩ := q
      simp only [Except.ok.injEq, Prod.mk.injEq] at h
      exact ⟨st7, by rw [← h.2.1, ← h.1]⟩

/-- The effect name recorded by the pipeline is the explicitly configured
name whenever that name is a truthy (nonempty) string. -/
theorem getName_named (o : EffectSection) (d : EffectData) (n : String)
    (hn : o._name = some n) (hne : n ≠ "") : getName o d = n := by
  simp [getName, hn, hne]

/-- Looking up a name and repetition immediately after recording a
position under them returns exactly that position. -/
theorem getCachedPosition_insert (st : SeqState) (n : String) (rep : ℕ) (p : Pt) :
    getCachedPosition (insertCachedPosition st n rep p) n rep = some p := by
  unfold getCachedPosition insertCachedPosition
  rw [List.find?_cons_of_pos _ (by simp)]
  rfl

/-- C7: named-position round trip — (a) recording a position under a name
and repetition and then looking that pair up returns exactly the recorded
point; (b) a successful pipeline run with a truthy explicit name records
its descriptor's position so that a later lookup of that name at the same
repetition returns it; (c) resolving a name reference through
`_calculatePositions` (no target, no miss) returns exactly the cached
point; (d) a run whose origin is a name reference with no matching record
for the current repetition fails with `UnresolvedNameError`. -/
theorem claim_C7 :
    (∀ (st : SeqState) (n : String) (rep : ℕ) (p : Pt),
      getCachedPosition (insertCachedPosition st n rep p) n rep = some p) ∧
    (∀ (o : EffectSection) (ctx : Ctx) (rep : ℕ) (st : SeqState) (k : ℕ) (n : String),
      o._name = some n → n ≠ "" →
      ∀ d st' k', sanitizeData o ctx rep st k = .ok (d, st', k') →
        getCachedPosition st' n rep = some d.position) ∧
    (∀ (ctx : Ctx) (st : SeqState) (rep : ℕ) (n : String) (p : Pt) (k : ℕ),
      getCachedPosition st n rep = some p →
      calculatePositions ctx st rep (.name n) none false k = .ok ((p, none), k)) ∧
    (∀ (o : EffectSection) (ctx : Ctx) (rep : ℕ) (st : SeqState) (k : ℕ) (n : String),
      o._from = some (.name n) → n ≠ "" →
      getCachedPosition st n rep = none →
      sanitizeData o ctx rep st k = .error (.unresolvedName n rep)) := by
  refine ⟨fun st n rep p => getCachedPosition_insert st n rep p, ?_, ?_, ?_⟩
  · intro o ctx rep st k n hn hne d st' k' h
    obtain ⟨st7, hst⟩ := sanitizeData_ok_state o ctx rep st k d st' k' h
    rw [hst]
    unfold recordPhase
    rw [getName_named o d n hn hne]
    exact getCachedPosition_insert st7 n rep d.position
  · intro ctx st rep n p k hp
    simp [calculatePositions, resolveLoc, hp, calculateMissedPosition, centerOf]
  · intro o ctx rep st k n hfrom hne hmiss
    have hf : locFalsy (Loc.name n) = false := by simp [locFalsy, hne]
    simp [sanitizeData, preparePhase, positionPhase, hfrom, hf, calculatePositions,
      resolveLoc, hmiss]

/-- Witness for C7: with the point (3, 4) recorded under `"n"` at
repetition 0, resolving the name reference `"n"` at repetition 0 yields
exactly (3, 4); resolving `"n"` at repetition 1 (no matching record)
makes the run fail with `UnresolvedNameError`. -/
theorem claim_C7_witness :
    calculatePositions cCtx cStNamed 0 (.name "n") none false 0 =
      .ok ((⟨3, 4⟩, none), 0) ∧
    sanitizeData { EffectSection.init 100 (.str "a.webm") with _from := some (.name "n") }
        cCtx 1 cStNamed 0 =
      .error (.unresolvedName "n" 1) :=
  ⟨claim_C7.2.2.1 cCtx cStNamed 0 "n" ⟨3, 4⟩ 0 rfl,
    claim_C7.2.2.2 { EffectSection.init 100 (.str "a.webm") with _from := some (.name "n") }
      cCtx 1 cStNamed 0 "n" rfl (by simp) rfl⟩

/-- With no target and the missed flag unset, the position phase consumes
no draws and leaves rotation and travel distance unchanged. -/
theorem positionPhase_noTarget (o : EffectSection) (ctx : Ctx) (rep : ℕ) (st : SeqState)
    (d0 : EffectData) (k : ℕ) (hto : o._to = none) (hmiss : o._missed = false) :
    ∀ d k1, positionPhase o ctx rep st d0 k = .ok (d, k1) →
      k1 = k ∧ d.rotation = d0.rotation ∧ d.dist = d0.dist := by
  intro d k1 h
  cases hfrom : o._from with
  | none =>
    simp only [positionPhase, hfrom] at h
    simp only [Except.ok.injEq, Prod.mk.injEq] at h
    exact ⟨h.2.symm, by rw [← h.1], by rw [← h.1]⟩
  | some f =>
    cases hff : locFalsy f with
    | true =>
      simp only [positionPhase, hfrom, hff, if_true] at h
      simp only [Except.ok.injEq, Prod.mk.injEq] at h
      exact ⟨h.2.symm, by rw [← h.1], by rw [← h.1]⟩
    | false =>
      simp only [positionPhase, hfrom, hff, hto, hmiss] at h
      cases hr : resolveLoc st rep f with
      | error e =>
        simp [calculatePositions, hr] at h
      | ok f2 =>
        simp only [calculatePositions, hr, calculateMissedPosition, Bool.false_eq_true,
          if_false, optLocTruthy] at h
        cases ha : o._anchor.isSome <;>
          simp only [ha, if_true, Bool.false_eq_true, if_false,
            Except.ok.injEq, Prod.mk.injEq] at h <;>
          exact ⟨h.2.symm, by rw [← h.1], by rw [← h.1]⟩

/-- C4 counterexample: the claim quantifies over every `EffectOptions`,
but `EffectOptions` includes the override hook lists, and a post-path
hook may rewrite the descriptor — here a hook sets the travel distance to
5 even though there is no target and no missed flag, so the returned
distance is not 0. -/
theorem claim_C4_counterexample :
    (descOf (sanitizeData cO4 cCtx 0 cSt0 0)).map (fun d => d.dist) = some 5 ∧
    (descOf (sanitizeData cO4 cCtx 0 cSt0 0)).map (fun d => d.dist) ≠ some 0 := by
  constructor
  · simp [descOf, sanitizeData, preparePhase, finishPhase, cO4, EffectSection.init, initData,
      applyAnchor, positionPhase, rotationRandomPhase, filePickPhase, mustachePhase,
      gridNormPhase, hitVectorPhase, calculateHitVector, scaleSpecPhase, mirrorPhase,
      baseFolderPhase, recordPhase, cHookDist, optLocTruthy]
  · simp [descOf, sanitizeData, preparePhase, finishPhase, cO4, EffectSection.init, initData,
      applyAnchor, positionPhase, rotationRandomPhase, filePickPhase, mustachePhase,
      gridNormPhase, hitVectorPhase, calculateHitVector, scaleSpecPhase, mirrorPhase,
      baseFolderPhase, recordPhase, cHookDist, optLocTruthy]

/-- C4 (amended): for every `EffectOptions` with no target location
reference, the missed flag unset and no override hooks, a successful
pipeline run returns travel distance 0 and rotation 0 when random
rotation is disabled, or the draw times π — a value in [0, π) — when it
is enabled. -/
theorem claim_C4 (o : EffectSection) (ctx : Ctx) (rep : ℕ) (st : SeqState) (k : ℕ)
    (hto : o._to = none) (hmiss : o._missed = false)
    (hov : o._overrides = []) (hpov : o._postOverrides = [])
    (h0 : 0 ≤ ctx.rand k) (h1 : ctx.rand k < 1) :
    ∀ d st' k', sanitizeData o ctx rep st k = .ok (d, st', k') →
      d.dist = 0 ∧
      d.rotation = (if o._randomRotation then ctx.rand k * Real.pi else 0) ∧
      0 ≤ d.rotation ∧ d.rotation < Real.pi := by
  intro d st' k' h
  unfold sanitizeData at h
  cases hp : preparePhase o ctx rep st k with
  | error e =>
    rw [hp] at h
    simp at h
  | ok p =>
    rw [hp] at h
    obtain ⟨d5, k5⟩ := p
    simp only at h
    -- dissect the preparation phase
    simp only [preparePhase] at hp
    cases hpp : positionPhase o ctx rep st (applyAnchor o (initData o)) k with
    | error e =>
      rw [hpp] at hp
      simp at hp
    | ok q =>
      rw [hpp] at hp
      obtain ⟨d1, k1⟩ := q
      obtain ⟨hk1, hrot1, hdist1⟩ :=
        positionPhase_noTarget o ctx rep st (applyAnchor o (initData o)) k hto hmiss d1 k1 hpp
      have hrot0 : d1.rotation = 0 := by
        rw [hrot1, (applyAnchor_fields o (initData o)).1]
        rfl
      have hdist0 : d1.dist = 0 := by
        rw [hdist1, (applyAnchor_fields o (initData o)).2.1]
        rfl
      rw [hov] at hp
      simp only [List.foldl_nil, rotationRandomPhase_eval] at hp
      simp only [Except.ok.injEq, Prod.mk.injEq] at hp
      -- the prepared descriptor has distance 0 and rotation = the draw term
      have hd5rot : d5.rotation =
          0 + (if o._randomRotation then ctx.rand k1 * Real.pi else 0) := by
        rw [← hp.1, (mustachePhase_fields o ctx _).2.2.2.1,
          (filePickPhase_fields ctx _ _).2.2.2.1, ← hrot0]
      have hd5dist : d5.dist = 0 := by
        rw [← hp.1, (mustachePhase_fields o ctx _).2.2.2.2,
          (filePickPhase_fields ctx _ _).2.2.2.2]
        exact hdist0
      -- dissect the finishing phase
      simp only [finishPhase] at h
      have hd6rot : (gridNormPhase o ctx d5).rotation = d5.rotation :=
        (gridNormPhase_fields o ctx d5).2.2.1
      have hd6dist : (gridNormPhase o ctx d5).dist = 0 := by
        rw [(gridNormPhase_fields o ctx d5).2.2.2.1]
        exact hd5dist
      rw [hitVectorPhase_dist0 o ctx st _ hd6dist] at h
      simp only at h
      obtain ⟨vx, vy, k8, hspec⟩ := scaleSpecPhase_factor o ctx k5
      obtain ⟨fx, fy, k9, hmir⟩ := mirrorPhase_factor o ctx k8
      rw [hspec] at h
      simp only at h
      rw [hmir] at h
      simp only [Except.ok.injEq, Prod.mk.injEq, hpov, List.foldl_nil] at h
      have hdrot : d.rotation = 0 + (if o._randomRotation then ctx.rand k * Real.pi else 0) := by
        rw [← h.1, (baseFolderPhase_fields o _).2.2.2.1]
        show (gridNormPhase o ctx d5).rotation = _
        rw [hd6rot, hd5rot, hk1]
      have hddist : d.dist = 0 := by
        rw [← h.1, (baseFolderPhase_fields o _).2.2.2.2]
        show (gridNormPhase o ctx d5).dist = _
        exact hd6dist
      refine ⟨hddist, by rw [hdrot, zero_add], ?_, ?_⟩
      · rw [hdrot, zero_add]
        cases hrr : o._randomRotation
        · simp
        · simp only [if_true]
          exact mul_nonneg h0 Real.pi_pos.le
      · rw [hdrot, zero_add]
        cases hrr : o._randomRotation
        · simp [Real.pi_pos]
        · simp only [if_true]
          calc ctx.rand k * Real.pi < 1 * Real.pi :=
                mul_lt_mul_of_pos_right h1 Real.pi_pos
            _ = Real.pi := one_mul _

/-- Witness for C4 at options with no target, no missed flag, no hooks
and random rotation disabled: the run succeeds with distance 0 and
rotation 0. -/
theorem claim_C4_witness :
    (descOf (sanitizeData (EffectSection.init 100 (.str "a.webm")) cCtx 0 cSt0 0)).map
        (fun d => (d.dist, d.rotation)) = some (0, 0) := by
  cases hEq : sanitizeData (EffectSection.init 100 (.str "a.webm")) cCtx 0 cSt0 0 with
  | error e =>
    simp [sanitizeData, preparePhase, finishPhase, EffectSection.init, initData,
      applyAnchor, positionPhase, rotationRandomPhase, filePickPhase, mustachePhase,
      gridNormPhase, hitVectorPhase, calculateHitVector, scaleSpecPhase, mirrorPhase,
      baseFolderPhase, recordPhase, optLocTruthy] at hEq
  | ok t =>
    obtain ⟨d, st', k'⟩ := t
    have hr := claim_C4 (EffectSection.init 100 (.str "a.webm")) cCtx 0 cSt0 0
      rfl rfl rfl rfl (by norm_num [cCtx, cRand]) (by norm_num [cCtx, cRand]) d st' k' hEq
    simp only [descOf]
    show some (d.dist, d.rotation) = some (0, 0)
    rw [hr.1, show d.rotation = 0 by simpa using hr.2.1]

/-- In rotation-only mode the hit-vector step is skipped entirely. -/
theorem hitVectorPhase_rotationOnly (o : EffectSection) (ctx : Ctx) (st : SeqState)
    (d : EffectData) (hrot : o._rotationOnly = true) :
    hitVectorPhase o ctx st d = .ok (d, st) := by
  simp [hitVectorPhase, hrot]

/-- The Euclidean distance from (0, 0) to (100, 0) is 100. -/
theorem rayDistance_horiz : rayDistance ⟨0, 0⟩ ⟨100, 0⟩ = 100 := by
  unfold rayDistance
  norm_num
  rw [show (10000 : ℝ) = 100 ^ 2 by norm_num]
  exact Real.sqrt_sq (by norm_num)

/-- Doubling the configured grid size halves the scale produced by the
finishing phase, in rotation-only mode with no post-path hooks. -/
theorem finishPhase_double (o : EffectSection) (ctx : Ctx) (rep : ℕ) (st : SeqState)
    (d5 : EffectData) (k5 : ℕ) (hrot : o._rotationOnly = true)
    (hpov : o._postOverrides = []) :
    ∀ d1 st1 k1 d2 st2 k2,
      finishPhase o ctx rep st d5 k5 = .ok (d1, st1, k1) →
      finishPhase { o with _gridSize := 2 * o._gridSize } ctx rep st d5 k5 = .ok (d2, st2, k2) →
      d2.scale.x = d1.scale.x / 2 ∧ d2.scale.y = d1.scale.y / 2 := by
  intro d1 st1 k1 d2 st2 k2 h1 h2
  have hrot2 : ({ o with _gridSize := 2 * o._gridSize } : EffectSection)._rotationOnly = true :=
    hrot
  have hpov2 : ({ o with _gridSize := 2 * o._gridSize } : EffectSection)._postOverrides = [] :=
    hpov
  have hss : scaleSpecPhase { o with _gridSize := 2 * o._gridSize } = scaleSpecPhase o := rfl
  have hmm2 : mirrorPhase { o with _gridSize := 2 * o._gridSize } = mirrorPhase o := rfl
  have hbf : baseFolderPhase { o with _gridSize := 2 * o._gridSize } = baseFolderPhase o := rfl
  simp only [finishPhase] at h1 h2
  rw [hitVectorPhase_rotationOnly o ctx st _ hrot] at h1
  rw [hitVectorPhase_rotationOnly _ ctx st _ hrot2] at h2
  simp only at h1 h2
  rw [hss, hmm2, hbf] at h2
  obtain ⟨vx, vy, k8, hspec⟩ := scaleSpecPhase_factor o ctx k5
  obtain ⟨fx, fy, k9, hmir⟩ := mirrorPhase_factor o ctx k8
  rw [hspec] at h1 h2
  simp only at h1 h2
  rw [hmir] at h1 h2
  simp only [hpov, hpov2, List.foldl_nil, Except.ok.injEq, Prod.mk.injEq] at h1 h2
  have hgg : ctx.canvasGridSize / (2 * o._gridSize) = ctx.canvasGridSize / o._gridSize / 2 := by
    rw [mul_comm, ← div_div]
  constructor
  · rw [← h1.1, ← h2.1]
    show d5.scale.x * (ctx.canvasGridSize / (2 * o._gridSize)) * vx * fx =
      d5.scale.x * (ctx.canvasGridSize / o._gridSize) * vx * fx / 2
    rw [hgg]
    ring
  · rw [← h1.1, ← h2.1]
    show d5.scale.y * (ctx.canvasGridSize / (2 * o._gridSize)) * vy * fy =
      d5.scale.y * (ctx.canvasGridSize / o._gridSize) * vy * fy / 2
    rw [hgg]
    ring

/-- C5 counterexample: in reach mode with nonzero travel distance the hit
vector overwrites `scale.x` with `_distance / trueLength`, so the final
scale is independent of the configured grid size: with origin (0, 0),
target (100, 0) and a 200-pixel-wide asset, runs configured with grid
size 100 and 200 both end with `scale.x = 1/2` — doubling the configured
grid size does not halve the final scale. -/
theorem claim_C5_counterexample :
    (descOf (sanitizeData cO5a cCtx 0 cStAsset 0)).map (fun d => d.scale.x) = some (1 / 2) ∧
    (descOf (sanitizeData cO5b cCtx 0 cStAsset 0)).map (fun d => d.scale.x) = some (1 / 2) ∧
    (descOf (sanitizeData cO5b cCtx 0 cStAsset 0)).map (fun d => d.scale.x) ≠
      (descOf (sanitizeData cO5a cCtx 0 cStAsset 0)).map (fun d => d.scale.x / 2) := by
  refine ⟨?_, ?_, ?_⟩
  · simp [descOf, sanitizeData, preparePhase, finishPhase, cO5a, EffectSection.init, initData,
      applyAnchor, positionPhase, calculatePositions, resolveLoc, centerOf,
      calculateMissedPosition, rotationRandomPhase, filePickPhase, mustachePhase,
      gridNormPhase, hitVectorPhase, calculateHitVector, getFileDimensions, getTrueLength,
      scaleSpecPhase, mirrorPhase, baseFolderPhase, recordPhase, getName, insertCachedPosition,
      jsFileToString, optLocTruthy, locFalsy, rayDistance_horiz, cStAsset, List.find?]
    norm_num
  · simp [descOf, sanitizeData, preparePhase, finishPhase, cO5b, cO5a, EffectSection.init,
      initData, applyAnchor, positionPhase, calculatePositions, resolveLoc, centerOf,
      calculateMissedPosition, rotationRandomPhase, filePickPhase, mustachePhase,
      gridNormPhase, hitVectorPhase, calculateHitVector, getFileDimensions, getTrueLength,
      scaleSpecPhase, mirrorPhase, baseFolderPhase, recordPhase, getName, insertCachedPosition,
      jsFileToString, optLocTruthy, locFalsy, rayDistance_horiz, cStAsset, List.find?]
    norm_num
  · simp [descOf, sanitizeData, preparePhase, finishPhase, cO5b, cO5a, EffectSection.init,
      initData, applyAnchor, positionPhase, calculatePositions, resolveLoc, centerOf,
      calculateMissedPosition, rotationRandomPhase, filePickPhase, mustachePhase,
      gridNormPhase, hitVectorPhase, calculateHitVector, getFileDimensions, getTrueLength,
      scaleSpecPhase, mirrorPhase, baseFolderPhase, recordPhase, getName, insertCachedPosition,
      jsFileToString, optLocTruthy, locFalsy, rayDistance_horiz, cStAsset, List.find?]
    norm_num

/-- C5 (amended): grid normalization multiplies both scale axes by
`targetGridSize / configuredGridSize`; and when the hit-vector step does
not fire (rotation-only mode) and no post-path hooks are configured, the
final scale is linear in that ratio — doubling the configured grid size
while holding the scene grid fixed halves both final scale axes, all
random draws equal.  (In reach mode with nonzero distance the hit vector
overwrites `scale.x`, breaking this linearity.) -/
theorem claim_C5 (o : EffectSection) (ctx : Ctx) (rep : ℕ) (st : SeqState) (k : ℕ)
    (hrot : o._rotationOnly = true) (hpov : o._postOverrides = []) :
    (∀ d : EffectData,
      (gridNormPhase o ctx d).scale.x = d.scale.x * (ctx.canvasGridSize / o._gridSize) ∧
      (gridNormPhase o ctx d).scale.y = d.scale.y * (ctx.canvasGridSize / o._gridSize)) ∧
    (∀ d1 st1 k1 d2 st2 k2,
      sanitizeData o ctx rep st k = .ok (d1, st1, k1) →
      sanitizeData { o with _gridSize := 2 * o._gridSize } ctx rep st k = .ok (d2, st2, k2) →
      d2.scale.x = d1.scale.x / 2 ∧ d2.scale.y = d1.scale.y / 2) := by
  constructor
  · intro d
    exact ⟨(gridNormPhase_fields o ctx d).2.2.2.2.2.1,
      (gridNormPhase_fields o ctx d).2.2.2.2.2.2⟩
  · intro d1 st1 k1 d2 st2 k2 h1 h2
    have hpre : preparePhase { o with _gridSize := 2 * o._gridSize } ctx rep st k =
        preparePhase o ctx rep st k := rfl
    unfold sanitizeData at h1 h2
    rw [hpre] at h2
    cases hp : preparePhase o ctx rep st k with
    | error e =>
      rw [hp] at h1
      simp at h1
    | ok p =>
      rw [hp] at h1 h2
      obtain ⟨d5, k5⟩ := p
      simp only at h1 h2
      exact finishPhase_double o ctx rep st d5 k5 hrot hpov d1 st1 k1 d2 st2 k2 h1 h2

/-- Witness for C5 at default rotation-only options on a scene grid of
100: the run with configured grid size 100 ends with `scale.x = 1` and
the run with configured grid size 200 ends with `scale.x = 1/2`. -/
theorem claim_C5_witness :
    (descOf (sanitizeData (EffectSection.init 100 (.str "a.webm")) cCtx 0 cSt0 0)).map
        (fun d => d.scale.x) = some 1 ∧
    (descOf (sanitizeData { EffectSection.init 100 (.str "a.webm") with
          _gridSize := 2 * (EffectSection.init 100 (.str "a.webm"))._gridSize }
        cCtx 0 cSt0 0)).map (fun d => d.scale.x) = some (1 / 2) := by
  have h1x : (descOf (sanitizeData (EffectSection.init 100 (.str "a.webm")) cCtx 0 cSt0 0)).map
      (fun d => d.scale.x) = some 1 := by
    simp [descOf, sanitizeData, preparePhase, finishPhase, EffectSection.init, initData,
      applyAnchor, positionPhase, rotationRandomPhase, filePickPhase, mustachePhase,
      gridNormPhase, hitVectorPhase, calculateHitVector, scaleSpecPhase, mirrorPhase,
      baseFolderPhase, recordPhase, optLocTruthy]
    norm_num [cCtx]
  refine ⟨h1x, ?_⟩
  cases hEq1 : sanitizeData (EffectSection.init 100 (.str "a.webm")) cCtx 0 cSt0 0 with
  | error e =>
    rw [hEq1] at h1x
    simp [descOf] at h1x
  | ok t1 =>
    obtain ⟨d1, st1, k1⟩ := t1
    cases hEq2 : sanitizeData { EffectSection.init 100 (.str "a.webm") with
        _gridSize := 2 * (EffectSection.init 100 (.str "a.webm"))._gridSize } cCtx 0 cSt0 0 with
    | error e =>
      exfalso
      simp [sanitizeData, preparePhase, finishPhase, EffectSection.init, initData,
        applyAnchor, positionPhase, rotationRandomPhase, filePickPhase, mustachePhase,
        gridNormPhase, hitVectorPhase, calculateHitVector, scaleSpecPhase, mirrorPhase,
        baseFolderPhase, recordPhase, optLocTruthy] at hEq2
    | ok t2 =>
      obtain ⟨d2, st2, k2⟩ := t2
      have hr := (claim_C5 (EffectSection.init 100 (.str "a.webm")) cCtx 0 cSt0 0
        rfl rfl).2 d1 st1 k1 d2 st2 k2 hEq1 hEq2
      rw [hEq1] at h1x
      simp only [descOf] at h1x
      have hd1 : d1.scale.x = 1 := by
        have := h1x
        simpa using this
      simp only [descOf]
      show some d2.scale.x = some (1 / 2)
      rw [hr.1, hd1]

end Sequencer

